import Mathlib

/-!
Shallow embedding of the VxLAN tunnel manager (src/vxlan_manager) in Lean 4.

The embedding follows the Python source:
- `core.py`: the `VxLANTunnel` dataclass with its `__post_init__` validation,
  and `VxLANManager.create_tunnel` / `delete_tunnel` / `recover_state` together
  with the private helpers `_create_vxlan_interface`, `_setup_bridge`,
  `_configure_mtu` and `_cleanup_tunnel`.
- `utils.py`: `validate_vni`, `validate_ip`, `validate_mtu`.
- `topology.py`: `TopologyManager._plan_hub_spoke`, `_plan_full_mesh`,
  `_plan_partial_mesh` and `validate_topology_config`.

Every shell invocation made through `utils.run_command` is modelled as a
symbolic `Op`; the operating system is an oracle `Backend : Op → Bool` giving
the success (exit code 0) of each command.  A command run with `check=True`
raises `CalledProcessError` on a non-zero exit code; a command run with
`check=False` never raises.  The in-memory tunnel registry `self.tunnels`
(a Python dict, iteration in insertion order) is an association list.
`save_configuration` performs file IO only; it is recorded by the `saved`
flag of a result.
-/

namespace VxLAN

/-- One shell command issued through `utils.run_command`, identified by call
site.  `linkAdd` is the `ip link add ... type vxlan id ... local ... remote
... dev ... dstport ...` command with its parameters; `linkShow` is the
existence probe run with `check=False`; the rest are the remaining `ip link`
commands of `core.py`. -/
inductive Op where
  | linkAdd (iface : String) (vni : Int) (lip rip phys : String) (prt : Int)
  | linkUp (iface : String)
  | linkShow (name : String)
  | bridgeAdd (name : String)
  | bridgeUp (name : String)
  | setMaster (iface bridge : String)
  | setMtu (iface : String) (mtu : Int)
  | noMaster (iface : String)
  | linkDelete (iface : String)
deriving DecidableEq, Repr

/-- Python exceptions raised by the code under study: `ValueError` (validation,
conflict, not-found, config errors), `KeyError` (missing dict key) and
`subprocess.CalledProcessError` (a checked command exited non-zero; the
payload is the failing operation). -/
inductive PyError where
  | valueError (msg : String)
  | keyError (key : String)
  | calledProcessError (op : Op)
deriving DecidableEq, Repr

/-- The operating system as an oracle: `b op = true` means the command `op`
exits with return code 0.  For `Op.linkShow name` this is the `check=False`
existence probe used by `_setup_bridge`, `_get_tunnel_status` and
`recover_state`. -/
def Backend : Type := Op → Bool

/-! ## utils.py: validation helpers

`validate_ip` delegates to the Python standard library
`ipaddress.ip_address`; that external library is modelled here by a
structurally recursive parser accepting dotted-quad IPv4 (four octets of one
to three digits, no leading zero, value at most 255) and colon-hextet IPv6
(one-to-four-hex-digit groups, an optional single `::` elision of at least
one group, an optional trailing embedded IPv4 counting as two groups).  Zone
suffixes are outside the modelled subset. -/

/-- Split a character list on a single separator character, keeping empty
segments, as Python `str.split(sep)` does. -/
def splitChar (sep : Char) : List Char → List (List Char)
  | [] => [[]]
  | c :: cs =>
    if c = sep then [] :: splitChar sep cs
    else
      match splitChar sep cs with
      | [] => [[c]]
      | g :: gs => (c :: g) :: gs

/-- Split a character list on every occurrence of a double colon, as Python
`str.split("::")` does. -/
def splitDoubleColon : List Char → List (List Char)
  | [] => [[]]
  | [c] => [[c]]
  | c1 :: c2 :: cs =>
    if c1 = ':' ∧ c2 = ':' then [] :: splitDoubleColon cs
    else
      match splitDoubleColon (c2 :: cs) with
      | [] => [[c1]]
      | g :: gs => (c1 :: g) :: gs

/-- Numeric value of a decimal digit string. -/
def digitsVal (g : List Char) : Nat :=
  g.foldl (fun n c => 10 * n + (c.toNat - 48)) 0

/-- One IPv4 octet: one to three decimal digits, no leading zero unless the
octet is exactly `0`, value at most 255. -/
def validOctet (g : List Char) : Bool :=
  g.all Char.isDigit &&
    decide (1 ≤ g.length ∧ g.length ≤ 3 ∧ (g.length = 1 ∨ g.head? ≠ some '0') ∧
      digitsVal g ≤ 255)

/-- Dotted-quad IPv4 literal. -/
def validIPv4 (cs : List Char) : Bool :=
  let gs := splitChar '.' cs
  gs.length == 4 && gs.all validOctet

/-- Hexadecimal digit. -/
def isHexDigitChar (c : Char) : Bool :=
  c.isDigit || ('a' ≤ c && c ≤ 'f') || ('A' ≤ c && c ≤ 'F')

/-- One IPv6 group: one to four hexadecimal digits. -/
def validHextet (g : List Char) : Bool :=
  g.all isHexDigitChar && decide (1 ≤ g.length ∧ g.length ≤ 4)

/-- Number of 16-bit groups represented by a colon-separated tail, where the
final group may be an embedded IPv4 literal counting as two groups; `none`
when some group is malformed. -/
def tailWeight : List (List Char) → Option Nat
  | [] => some 0
  | [g] => if validHextet g then some 1 else if validIPv4 g then some 2 else none
  | g :: g2 :: gs =>
    if validHextet g then (tailWeight (g2 :: gs)).map (· + 1) else none

/-- Groups of a half of a `::`-elided address; the empty half has no groups. -/
def colonGroups (cs : List Char) : List (List Char) :=
  if cs = [] then [] else splitChar ':' cs

/-- Colon-hextet IPv6 literal: either eight groups in full form, or a single
`::` eliding at least one group. -/
def validIPv6 (cs : List Char) : Bool :=
  match splitDoubleColon cs with
  | [whole] => tailWeight (splitChar ':' whole) == some 8
  | [l, r] =>
    (colonGroups l).all validHextet &&
      (match tailWeight (colonGroups r) with
       | some w => decide ((colonGroups l).length + w ≤ 7)
       | none => false)
  | _ => false

/-- Embedding of `utils.validate_ip`: `ipaddress.ip_address` accepts the
string (IPv4 first, then IPv6). -/
def validate_ip (s : String) : Bool :=
  validIPv4 s.toList || validIPv6 s.toList

/-- Embedding of `utils.validate_vni`: an `int` between 4096 and 16777215
inclusive. -/
def validate_vni (vni : Int) : Bool :=
  decide (4096 ≤ vni ∧ vni ≤ 16777215)

/-- Embedding of `utils.validate_mtu`: an `int` between 1280 and 9000
inclusive.  It is defined in `utils.py` but never invoked by the
`VxLANTunnel` constructor. -/
def validate_mtu (mtu : Int) : Bool :=
  decide (1280 ≤ mtu ∧ mtu ≤ 9000)

/-! ## core.py: the tunnel data model and lifecycle manager -/

/-- The `VxLANTunnel` dataclass of `core.py`, field for field. -/
structure VxLANTunnel where
  vni : Int
  local_ip : String
  remote_ip : String
  interface_name : String
  bridge_name : String
  physical_interface : String
  mtu : Int
  port : Int
  label : String
  encryption : String
  psk_key : Option String
deriving DecidableEq, Repr

/-- Constructing a `VxLANTunnel`, i.e. the dataclass constructor followed by
`__post_init__`: `validate_vni` on `vni`, then `validate_ip` on `local_ip`
and `remote_ip`, raising `ValueError` with the source's message on the first
failing check.  No other field is validated. -/
def mkVxLANTunnel (vni : Int) (lip rip iname bname phys : String)
    (mtu prt : Int) (lbl enc : String) (psk : Option String) :
    Except PyError VxLANTunnel :=
  if validate_vni vni = false then
    .error (.valueError ("Invalid VNI: " ++ toString vni ++
      ". Must be between 4096 and 16777215"))
  else if validate_ip lip = false then
    .error (.valueError ("Invalid local IP: " ++ lip))
  else if validate_ip rip = false then
    .error (.valueError ("Invalid remote IP: " ++ rip))
  else
    .ok { vni := vni, local_ip := lip, remote_ip := rip, interface_name := iname,
          bridge_name := bname, physical_interface := phys, mtu := mtu,
          port := prt, label := lbl, encryption := enc, psk_key := psk }

/-- The in-memory tunnel registry `self.tunnels`: a Python dict from tunnel id
to `VxLANTunnel`, iterated in insertion order. -/
abbrev Store : Type := List (String × VxLANTunnel)

/-- Embedding of `VxLANManager._create_vxlan_interface`: `ip link add ...`
followed by `ip link set ... up`, both `check=True`.  Returns the commands
actually issued and the first raised `CalledProcessError`, if any. -/
def createVxlanInterface (b : Backend) (t : VxLANTunnel) :
    List Op × Option PyError :=
  let a := Op.linkAdd t.interface_name t.vni t.local_ip t.remote_ip
    t.physical_interface t.port
  let u := Op.linkUp t.interface_name
  if b a = false then ([a], some (.calledProcessError a))
  else if b u = false then ([a, u], some (.calledProcessError u))
  else ([a, u], none)

/-- Embedding of `VxLANManager._setup_bridge`: probe the bridge with
`ip link show` (`check=False`); when absent, create it and bring it up
(`check=True`); then attach the tunnel interface with
`ip link set ... master ...` (`check=True`). -/
def setupBridge (b : Backend) (t : VxLANTunnel) : List Op × Option PyError :=
  let q := Op.linkShow t.bridge_name
  let ba := Op.bridgeAdd t.bridge_name
  let bu := Op.bridgeUp t.bridge_name
  let m := Op.setMaster t.interface_name t.bridge_name
  if b q then
    if b m = false then ([q, m], some (.calledProcessError m))
    else ([q, m], none)
  else
    if b ba = false then ([q, ba], some (.calledProcessError ba))
    else if b bu = false then ([q, ba, bu], some (.calledProcessError bu))
    else if b m = false then ([q, ba, bu, m], some (.calledProcessError m))
    else ([q, ba, bu, m], none)

/-- Embedding of `VxLANManager._configure_mtu`: `ip link set ... mtu ...`
with `check=True`. -/
def configureMtu (b : Backend) (t : VxLANTunnel) : List Op × Option PyError :=
  let s := Op.setMtu t.interface_name t.mtu
  if b s = false then ([s], some (.calledProcessError s))
  else ([s], none)

/-- Sequencing of two command-issuing steps: the second runs only when the
first raised no exception. -/
def seq2 (r r2 : List Op × Option PyError) : List Op × Option PyError :=
  match r.2 with
  | some e => (r.1, some e)
  | none => (r.1 ++ r2.1, r2.2)

/-- The forward provisioning pass of `create_tunnel` and `recover_state`:
`_create_vxlan_interface`, then `_setup_bridge`, then `_configure_mtu`.
`_setup_encryption` issues no shell command and cannot raise, so it
contributes nothing here. -/
def forwardPass (b : Backend) (t : VxLANTunnel) : List Op × Option PyError :=
  seq2 (createVxlanInterface b t) (seq2 (setupBridge b t) (configureMtu b t))

/-- The command sequence of a fully successful forward pass, as determined by
the backend's answer to the bridge-existence probe. -/
def fullTrace (b : Backend) (t : VxLANTunnel) : List Op :=
  [Op.linkAdd t.interface_name t.vni t.local_ip t.remote_ip
     t.physical_interface t.port,
   Op.linkUp t.interface_name, Op.linkShow t.bridge_name] ++
  (if b (Op.linkShow t.bridge_name) then []
   else [Op.bridgeAdd t.bridge_name, Op.bridgeUp t.bridge_name]) ++
  [Op.setMaster t.interface_name t.bridge_name,
   Op.setMtu t.interface_name t.mtu]

/-- Observable outcome of one `create_tunnel` call: the returned id or raised
exception, the registry afterwards, the shell commands issued, and whether
`save_configuration` ran. -/
structure CreateResult where
  ret : Except PyError String
  tunnels : Store
  trace : List Op
  saved : Bool
deriving Repr

/-- The default tunnel id, `f"vxlan{tunnel.vni}"`. -/
def derivedId (t : VxLANTunnel) : String := "vxlan" ++ toString t.vni

/-- Embedding of `VxLANManager.create_tunnel`.  A falsy (`None` or empty)
`tunnel_id` is replaced by the derived id.  An existing record under the id
short-circuits: matching `(vni, local_ip, remote_ip)` is an idempotent no-op
returning the id, anything else raises `ValueError`.  Otherwise the forward
pass runs; on failure `_cleanup_tunnel` issues a best-effort
`ip link delete` (`check=False`, exceptions swallowed), nothing is persisted
and the original exception propagates; on success the record is stored and
saved. -/
def create_tunnel (b : Backend) (store : Store) (t : VxLANTunnel)
    (tid? : Option String) : CreateResult :=
  let tid := match tid? with
    | none => derivedId t
    | some s => if s = "" then derivedId t else s
  match store.lookup tid with
  | some ex =>
    if ex.vni = t.vni ∧ ex.local_ip = t.local_ip ∧ ex.remote_ip = t.remote_ip then
      { ret := .ok tid, tunnels := store, trace := [], saved := false }
    else
      { ret := .error (.valueError ("Tunnel " ++ tid ++
          " exists with different configuration")),
        tunnels := store, trace := [], saved := false }
  | none =>
    let fp := forwardPass b t
    match fp.2 with
    | some e =>
      { ret := .error e, tunnels := store,
        trace := fp.1 ++ [Op.linkDelete t.interface_name], saved := false }
    | none =>
      { ret := .ok tid, tunnels := store ++ [(tid, t)], trace := fp.1,
        saved := true }

/-- Observable outcome of one `delete_tunnel` call. -/
structure DeleteResult where
  ret : Except PyError Unit
  tunnels : Store
  trace : List Op
  saved : Bool
deriving Repr

/-- Embedding of `VxLANManager.delete_tunnel`: an unknown id raises
`ValueError` before any command; otherwise `ip link set ... nomaster` and
`ip link delete ...`, both `check=False` so backend outcomes (including the
object being already absent) are ignored, then the record is removed and the
registry saved unconditionally. -/
def delete_tunnel (_b : Backend) (store : Store) (tid : String) : DeleteResult :=
  match store.lookup tid with
  | none =>
    { ret := .error (.valueError ("Tunnel " ++ tid ++ " not found")),
      tunnels := store, trace := [], saved := false }
  | some t =>
    { ret := .ok (), tunnels := store.filter (fun p => p.1 != tid),
      trace := [Op.noMaster t.interface_name, Op.linkDelete t.interface_name],
      saved := true }

/-- The value a Python function call evaluates to when `recover_state`
returns: the source has no `return` statement, so the call yields `None`; a
`(recovered, failed)` pair is representable but never produced. -/
inductive RecoverRet where
  | retNone
  | retPair (recovered failed : Nat)
deriving DecidableEq, Repr

/-- One iteration of the `recover_state` loop for a stored tunnel: probe the
interface with `ip link show` (`check=False`); when absent, replay the
forward pass, any raised exception being caught, logged and swallowed by the
surrounding `try`/`except`. -/
def recoverTunnel (b : Backend) (t : VxLANTunnel) : List Op :=
  let q := Op.linkShow t.interface_name
  if b q then [q] else q :: (forwardPass b t).1

/-- Embedding of `VxLANManager.recover_state`: iterate over the registry in
order, running `recoverTunnel` for each record; no record is added, removed
or re-saved, and the function returns `None`. -/
def recover_state (b : Backend) (store : Store) : List Op × RecoverRet :=
  ((store.map (fun p => recoverTunnel b p.2)).flatten, RecoverRet.retNone)

/-! ## topology.py: pure planning and structural validation

Topology configurations are loosely typed dicts in Python; the embedding
types the recognized fields, with `Option` marking keys that may be absent.
Dynamic-type violations (a node or connection entry that is not a dict, a
non-`int` `base_vni`) are outside the embedding. -/

/-- One node of the inventory: the recognized fields of a node dict.  A
missing `wan_ip` key makes `nodes[name]['wan_ip']` raise `KeyError` during
planning. -/
structure NodeCfg where
  wan_ip : Option String
  physical_interface : Option String
deriving DecidableEq, Repr

/-- One entry of a partial-mesh `connections` list. -/
structure Connection where
  node1 : Option String
  node2 : Option String
deriving DecidableEq, Repr

/-- A topology config dict.  `hub = none` models an absent or empty (falsy)
`hub` dict; `hub = some h` models a truthy `hub` dict whose `node` key holds
`h` (`h = none` when the key is missing, i.e. Python `None`). -/
structure TopologyConfig where
  nodes : List (String × NodeCfg)
  hub : Option (Option String)
  connections : List Connection
  base_vni : Option Int
  bridge_name : Option String
deriving DecidableEq, Repr

/-- One entry of a planned-tunnels dict.  For hub-spoke plans `nodeA`/`nodeB`
are the source's `hub_node`/`spoke_node` keys; for mesh plans they are
`node1`/`node2`. -/
structure PlannedTunnel where
  tunnel_id : String
  ttype : String
  nodeA : String
  nodeB : String
  vni : Int
  local_ip : String
  remote_ip : String
  interface_name : String
  bridge_name : String
deriving DecidableEq, Repr

/-- Python `str(x)` on an optional string: `None` prints as `"None"`. -/
def pyStr : Option String → String
  | none => "None"
  | some s => s

/-- Python truthiness of an optional string: `None` and the empty string are
falsy. -/
def isFalsy : Option String → Bool
  | none => true
  | some s => s == ""

/-- Reading `nodes[name]['wan_ip']`.  The name always comes from the node
dict itself in the source, so the first `KeyError` branch is vacuous there;
the second models a node dict without a `wan_ip` key. -/
def wanIpOf (nodes : List (String × NodeCfg)) (name : String) :
    Except PyError String :=
  match nodes.lookup name with
  | none => .error (.keyError name)
  | some info =>
    match info.wan_ip with
    | none => .error (.keyError "wan_ip")
    | some ip => .ok ip

/-- Unordered pairs of a list in the order produced by
`itertools.combinations(keys, 2)`. -/
def pairsOf : List α → List (α × α)
  | [] => []
  | x :: xs => xs.map (fun y => (x, y)) ++ pairsOf xs

/-- The loop body of `_plan_full_mesh` over the remaining node pairs, with
the running VNI counter. -/
def meshEntries (cfg : TopologyConfig) :
    List (String × String) → Int → Except PyError (List (String × PlannedTunnel))
  | [], _ => .ok []
  | (n1, n2) :: rest, vni =>
    match wanIpOf cfg.nodes n1 with
    | .error e => .error e
    | .ok lip =>
      match wanIpOf cfg.nodes n2 with
      | .error e => .error e
      | .ok rip =>
        match meshEntries cfg rest (vni + 1) with
        | .error e => .error e
        | .ok restE =>
          let vs := toString vni
          let tid := "mesh-" ++ n1 ++ "-" ++ n2 ++ "-" ++ vs
          .ok ((tid,
            { tunnel_id := tid, ttype := "full-mesh", nodeA := n1, nodeB := n2,
              vni := vni, local_ip := lip, remote_ip := rip,
              interface_name := "vxlan" ++ vs,
              bridge_name := cfg.bridge_name.getD "br-lan" }) :: restE)

/-- Embedding of `TopologyManager._plan_full_mesh`: walk
`combinations(nodes.keys(), 2)` with a VNI counter starting at
`config.get('base_vni', 100)`. -/
def plan_full_mesh (cfg : TopologyConfig) :
    Except PyError (List (String × PlannedTunnel)) :=
  meshEntries cfg (pairsOf (cfg.nodes.map (fun p => p.1))) (cfg.base_vni.getD 100)

/-- The loop body of `_plan_hub_spoke` over the remaining inventory entries,
skipping the hub itself, with the running VNI counter. -/
def spokeEntries (cfg : TopologyConfig) (hubName : String) (hubInfo : NodeCfg) :
    List (String × NodeCfg) → Int → Except PyError (List (String × PlannedTunnel))
  | [], _ => .ok []
  | (name, info) :: rest, vni =>
    if name = hubName then spokeEntries cfg hubName hubInfo rest vni
    else
      match hubInfo.wan_ip with
      | none => .error (.keyError "wan_ip")
      | some lip =>
        match info.wan_ip with
        | none => .error (.keyError "wan_ip")
        | some rip =>
          match spokeEntries cfg hubName hubInfo rest (vni + 1) with
          | .error e => .error e
          | .ok restE =>
            let vs := toString vni
            let tid := "hub-" ++ name ++ "-" ++ vs
            .ok ((tid,
              { tunnel_id := tid, ttype := "hub-spoke", nodeA := hubName,
                nodeB := name, vni := vni, local_ip := lip, remote_ip := rip,
                interface_name := "vxlan" ++ vs,
                bridge_name := cfg.bridge_name.getD "br-lan" }) :: restE)

/-- Embedding of `TopologyManager._plan_hub_spoke`: a falsy `hub` dict raises
`ValueError`; a designated hub absent from the inventory (including
`hub_node = None`) raises `ValueError` naming it; otherwise one tunnel per
non-hub inventory entry, VNIs counted from `config.get('base_vni', 100)` in
inventory iteration order. -/
def plan_hub_spoke (cfg : TopologyConfig) :
    Except PyError (List (String × PlannedTunnel)) :=
  match cfg.hub with
  | none => .error (.valueError "Hub configuration is required for hub-spoke topology")
  | some hn =>
    match hn.bind (fun h => (cfg.nodes.lookup h).map (fun info => (h, info))) with
    | none =>
      .error (.valueError ("Hub node '" ++ pyStr hn ++
        "' not found in nodes configuration"))
    | some (h, info) => spokeEntries cfg h info cfg.nodes (cfg.base_vni.getD 100)

/-- The loop body of `_plan_partial_mesh` over the remaining connection
entries, with the running VNI counter.  Endpoints absent from the inventory
(including a missing `node1`/`node2` key, i.e. `None`) raise `ValueError`;
nothing rejects a connection of a node to itself. -/
def partialEntries (cfg : TopologyConfig) :
    List Connection → Int → Except PyError (List (String × PlannedTunnel))
  | [], _ => .ok []
  | c :: rest, vni =>
    match c.node1.bind (fun n => (cfg.nodes.lookup n).map (fun i => (n, i))) with
    | none =>
      .error (.valueError ("Node '" ++ pyStr c.node1 ++
        "' not found in nodes configuration"))
    | some (n1, i1) =>
      match c.node2.bind (fun n => (cfg.nodes.lookup n).map (fun i => (n, i))) with
      | none =>
        .error (.valueError ("Node '" ++ pyStr c.node2 ++
          "' not found in nodes configuration"))
      | some (n2, i2) =>
        match i1.wan_ip with
        | none => .error (.keyError "wan_ip")
        | some lip =>
          match i2.wan_ip with
          | none => .error (.keyError "wan_ip")
          | some rip =>
            match partialEntries cfg rest (vni + 1) with
            | .error e => .error e
            | .ok restE =>
              let vs := toString vni
              let tid := "partial-" ++ n1 ++ "-" ++ n2 ++ "-" ++ vs
              .ok ((tid,
                { tunnel_id := tid, ttype := "partial-mesh", nodeA := n1,
                  nodeB := n2, vni := vni, local_ip := lip, remote_ip := rip,
                  interface_name := "vxlan" ++ vs,
                  bridge_name := cfg.bridge_name.getD "br-lan" }) :: restE)

/-- Embedding of `TopologyManager._plan_partial_mesh`: an empty (falsy)
connections list raises `ValueError`; otherwise one tunnel per connection
entry in list order. -/
def plan_partial_mesh (cfg : TopologyConfig) :
    Except PyError (List (String × PlannedTunnel)) :=
  if cfg.connections = [] then
    .error (.valueError "Connections list is required for partial mesh topology")
  else partialEntries cfg cfg.connections (cfg.base_vni.getD 100)

/-- The per-node checks of `validate_topology_config`: a missing `wan_ip`
key, or a `wan_ip` that `ipaddress.ip_address` rejects. -/
def nodeErrors (nodes : List (String × NodeCfg)) : List String :=
  (nodes.map (fun p =>
    match p.2.wan_ip with
    | none => ["Node '" ++ p.1 ++ "' missing 'wan_ip' field"]
    | some w =>
      if validate_ip w then []
      else ["Node '" ++ p.1 ++ "' has invalid wan_ip: " ++ w])).flatten

/-- The hub-spoke checks of `validate_topology_config`. -/
def hubErrors (cfg : TopologyConfig) : List String :=
  match cfg.hub with
  | none => ["Hub configuration is required for hub-spoke topology"]
  | some hn =>
    if isFalsy hn then ["Hub node must be specified"]
    else if (cfg.nodes.lookup (pyStr hn)).isSome then []
    else ["Hub node '" ++ pyStr hn ++ "' not found in nodes configuration"]

/-- The per-connection checks of `validate_topology_config`, carrying the
`enumerate` index: a falsy endpoint is reported missing, a non-member
endpoint unknown, and equal endpoints (Python `==`, so also two `None`s) a
self-connection. -/
def connErrors (nodes : List (String × NodeCfg)) (i : Nat) :
    List Connection → List String
  | [] => []
  | c :: rest =>
    let is := toString i
    let e1 :=
      if isFalsy c.node1 then ["Connection " ++ is ++ " missing 'node1' field"]
      else if (nodes.lookup (pyStr c.node1)).isSome then []
      else ["Connection " ++ is ++ " references unknown node '" ++
        pyStr c.node1 ++ "'"]
    let e2 :=
      if isFalsy c.node2 then ["Connection " ++ is ++ " missing 'node2' field"]
      else if (nodes.lookup (pyStr c.node2)).isSome then []
      else ["Connection " ++ is ++ " references unknown node '" ++
        pyStr c.node2 ++ "'"]
    let e3 :=
      if c.node1 = c.node2 then
        ["Connection " ++ is ++ " cannot connect node to itself"]
      else []
    e1 ++ e2 ++ e3 ++ connErrors nodes (i + 1) rest

/-- The partial-mesh checks of `validate_topology_config`. -/
def partialErrors (cfg : TopologyConfig) : List String :=
  if cfg.connections = [] then
    ["Connections list is required for partial mesh topology"]
  else connErrors cfg.nodes 0 cfg.connections

/-- The `base_vni` range check of `validate_topology_config`; the default for
a missing key is 100.  The `isinstance(base_vni, int)` guard is discharged by
typing. -/
def baseVniErrors (cfg : TopologyConfig) : List String :=
  let bv := cfg.base_vni.getD 100
  if bv < 4096 ∨ 16777215 < bv then
    ["Invalid base_vni: " ++ toString bv ++
      ". Must be between 4096 and 16777215"]
  else []

/-- Embedding of `TopologyManager.validate_topology_config`: an empty node
inventory returns immediately; otherwise all violations are accumulated —
per-node checks, then the checks specific to the requested topology type,
then the `base_vni` range check — and success is their absence. -/
def validate_topology_config (tt : String) (cfg : TopologyConfig) :
    Bool × List String :=
  if cfg.nodes = [] then (false, ["Nodes configuration is required"])
  else
    let errs := nodeErrors cfg.nodes
      ++ (if tt = "hub-spoke" then hubErrors cfg else [])
      ++ (if tt = "partial-mesh" then partialErrors cfg else [])
      ++ baseVniErrors cfg
    (errs.isEmpty, errs)

/-! ## Concrete instances used as witnesses -/

/-- A backend on which every command succeeds. -/
def allOk : Backend := fun _ => true

/-- A backend on which the bridge-existence probe reports the bridge absent
and the attach command fails; everything else succeeds. -/
def attachFail : Backend := fun op =>
  match op with
  | .linkShow _ => false
  | .setMaster _ _ => false
  | _ => true

/-- A backend on which every existence probe reports the object absent and
every other command succeeds. -/
def probeFail : Backend := fun op =>
  match op with
  | .linkShow _ => false
  | _ => true

/-- A valid concrete tunnel. -/
def sampleTunnel : VxLANTunnel :=
  { vni := 5000, local_ip := "10.0.0.1", remote_ip := "10.0.0.2",
    interface_name := "vxlan5000", bridge_name := "br-lan",
    physical_interface := "eth0", mtu := 1450, port := 4789, label := "",
    encryption := "none", psk_key := none }

/-- A tunnel agreeing with `sampleTunnel` except for its remote endpoint. -/
def divergentTunnel : VxLANTunnel :=
  { sampleTunnel with remote_ip := "10.0.0.9" }

/-- A registry holding `sampleTunnel` under its derived id. -/
def sampleStore : Store := [("vxlan5000", sampleTunnel)]

/-- The three-node full-mesh configuration of the specification's example:
nodes A, B, C with `base_vni = 2000`. -/
def meshCfg3 : TopologyConfig :=
  { nodes := [("A", { wan_ip := some "10.0.0.1", physical_interface := none }),
              ("B", { wan_ip := some "10.0.0.2", physical_interface := none }),
              ("C", { wan_ip := some "10.0.0.3", physical_interface := none })],
    hub := none, connections := [], base_vni := some 2000, bridge_name := none }

/-- The plan `_plan_full_mesh` produces for `meshCfg3`. -/
def meshPlan3 : List (String × PlannedTunnel) :=
  [("mesh-A-B-2000",
    { tunnel_id := "mesh-A-B-2000", ttype := "full-mesh", nodeA := "A",
      nodeB := "B", vni := 2000, local_ip := "10.0.0.1",
      remote_ip := "10.0.0.2", interface_name := "vxlan2000",
      bridge_name := "br-lan" }),
   ("mesh-A-C-2001",
    { tunnel_id := "mesh-A-C-2001", ttype := "full-mesh", nodeA := "A",
      nodeB := "C", vni := 2001, local_ip := "10.0.0.1",
      remote_ip := "10.0.0.3", interface_name := "vxlan2001",
      bridge_name := "br-lan" }),
   ("mesh-B-C-2002",
    { tunnel_id := "mesh-B-C-2002", ttype := "full-mesh", nodeA := "B",
      nodeB := "C", vni := 2002, local_ip := "10.0.0.2",
      remote_ip := "10.0.0.3", interface_name := "vxlan2002",
      bridge_name := "br-lan" })]

/-- A partial-mesh configuration whose single connection links node A to
itself. -/
def selfPairCfg : TopologyConfig :=
  { nodes := [("A", { wan_ip := some "10.0.0.1", physical_interface := none })],
    hub := none,
    connections := [{ node1 := some "A", node2 := some "A" }],
    base_vni := some 5000, bridge_name := none }

/-- The planned tunnel `_plan_partial_mesh` produces for `selfPairCfg`. -/
def selfPairPlanned : PlannedTunnel :=
  { tunnel_id := "partial-A-A-5000", ttype := "partial-mesh", nodeA := "A",
    nodeB := "A", vni := 5000, local_ip := "10.0.0.1",
    remote_ip := "10.0.0.1", interface_name := "vxlan5000",
    bridge_name := "br-lan" }

/-- A partial-mesh configuration whose single connection references a node
absent from the inventory. -/
def unknownNodeCfg : TopologyConfig :=
  { nodes := [("A", { wan_ip := some "10.0.0.1", physical_interface := none })],
    hub := none,
    connections := [{ node1 := some "A", node2 := some "Z" }],
    base_vni := some 5000, bridge_name := none }

/-- A hub-spoke configuration: hub H plus two spokes. -/
def hubCfg : TopologyConfig :=
  { nodes := [("H", { wan_ip := some "10.0.0.1", physical_interface := none }),
              ("S1", { wan_ip := some "10.0.0.2", physical_interface := none }),
              ("S2", { wan_ip := some "10.0.0.3", physical_interface := none })],
    hub := some (some "H"), connections := [], base_vni := some 5000,
    bridge_name := none }

/-- The plan `_plan_hub_spoke` produces for `hubCfg`. -/
def planHub : List (String × PlannedTunnel) :=
  [("hub-S1-5000",
    { tunnel_id := "hub-S1-5000", ttype := "hub-spoke", nodeA := "H",
      nodeB := "S1", vni := 5000, local_ip := "10.0.0.1",
      remote_ip := "10.0.0.2", interface_name := "vxlan5000",
      bridge_name := "br-lan" }),
   ("hub-S2-5001",
    { tunnel_id := "hub-S2-5001", ttype := "hub-spoke", nodeA := "H",
      nodeB := "S2", vni := 5001, local_ip := "10.0.0.1",
      remote_ip := "10.0.0.3", interface_name := "vxlan5001",
      bridge_name := "br-lan" })]

/-- A well-formed two-node configuration without a `base_vni` key. -/
def noBaseCfg : TopologyConfig :=
  { nodes := [("A", { wan_ip := some "10.0.0.1", physical_interface := none }),
              ("B", { wan_ip := some "10.0.0.2", physical_interface := none })],
    hub := none, connections := [], base_vni := none, bridge_name := none }

/-! ## Helper lemmas -/

/-- Removing every binding of a key from an association list makes lookup of
that key fail. -/
theorem lookup_filter_ne (l : Store) (tid : String) :
    List.lookup tid (l.filter (fun p => p.1 != tid)) = none := by
  induction l with
  | nil => rfl
  | cons p rest ih =>
    by_cases h : p.1 = tid
    · simp [List.filter_cons, h, ih]
    · have h2 : (tid == p.1) = false :=
        beq_eq_false_iff_ne.mpr (fun hh => h hh.symm)
      simp [List.filter_cons, h, List.lookup, ih, h2]

/-- C1: a second `create_tunnel` call under an id whose stored record has the
same `(vni, local_ip, remote_ip)` triple returns that id, issues no backend
command, does not save, and leaves the registry unchanged. -/
theorem create_idempotent_noop (b : Backend) (store : Store)
    (t ex : VxLANTunnel) (tid : String) (hne : tid ≠ "")
    (hmem : List.lookup tid store = some ex)
    (hv : ex.vni = t.vni) (hl : ex.local_ip = t.local_ip)
    (hr : ex.remote_ip = t.remote_ip) :
    create_tunnel b store t (some tid) =
      { ret := .ok tid, tunnels := store, trace := [], saved := false } := by
  simp [create_tunnel, hne, hmem, hv, hl, hr]

/-- Witness for C1 at a concrete store and matching tunnel. -/
theorem create_idempotent_noop_witness :
    create_tunnel allOk sampleStore sampleTunnel (some "vxlan5000") =
      { ret := .ok "vxlan5000", tunnels := sampleStore, trace := [],
        saved := false } :=
  create_idempotent_noop allOk sampleStore sampleTunnel sampleTunnel
    "vxlan5000" (by decide) rfl rfl rfl rfl

/-- C5: a `create_tunnel` call under an existing id whose stored record
differs in `(vni, local_ip, remote_ip)` raises `ValueError`, issues no
backend command, does not save, and leaves the registry unchanged. -/
theorem create_conflict_preserves_store (b : Backend) (store : Store)
    (t ex : VxLANTunnel) (tid : String) (hne : tid ≠ "")
    (hmem : List.lookup tid store = some ex)
    (hdiff : ¬(ex.vni = t.vni ∧ ex.local_ip = t.local_ip ∧
      ex.remote_ip = t.remote_ip)) :
    create_tunnel b store t (some tid) =
      { ret := .error (.valueError ("Tunnel " ++ tid ++
          " exists with different configuration")),
        tunnels := store, trace := [], saved := false } := by
  simp [create_tunnel, hne, hmem, hdiff]

/-- Witness for C5 at a concrete store and a tunnel with a divergent remote
endpoint. -/
theorem create_conflict_preserves_store_witness :
    create_tunnel allOk sampleStore divergentTunnel (some "vxlan5000") =
      { ret := .error (.valueError
          "Tunnel vxlan5000 exists with different configuration"),
        tunnels := sampleStore, trace := [], saved := false } :=
  create_conflict_preserves_store allOk sampleStore divergentTunnel
    sampleTunnel "vxlan5000" (by decide) rfl (by decide)

/-- C6: deleting an unknown id raises `ValueError` and changes nothing;
deleting a known id issues the two `check=False` teardown commands and
removes the record, for every backend answer (in particular when the backend
reports the object already absent). -/
theorem delete_tunnel_semantics (b : Backend) (store : Store) (tid : String) :
    (List.lookup tid store = none →
      delete_tunnel b store tid =
        { ret := .error (.valueError ("Tunnel " ++ tid ++ " not found")),
          tunnels := store, trace := [], saved := false }) ∧
    (∀ t, List.lookup tid store = some t →
      delete_tunnel b store tid =
        { ret := .ok (), tunnels := store.filter (fun p => p.1 != tid),
          trace := [Op.noMaster t.interface_name,
            Op.linkDelete t.interface_name],
          saved := true } ∧
      List.lookup tid (delete_tunnel b store tid).tunnels = none) := by
  refine ⟨fun h => by simp [delete_tunnel, h], fun t h => ⟨?_, ?_⟩⟩
  · simp [delete_tunnel, h]
  · simp [delete_tunnel, h, lookup_filter_ne]

/-- Witness for C6: both branches at a concrete store, with a backend whose
every command reports failure (the object is already absent). -/
theorem delete_tunnel_semantics_witness :
    delete_tunnel (fun _ => false) sampleStore "missing" =
      { ret := .error (.valueError "Tunnel missing not found"),
        tunnels := sampleStore, trace := [], saved := false } ∧
    List.lookup "vxlan5000"
      (delete_tunnel (fun _ => false) sampleStore "vxlan5000").tunnels = none :=
  ⟨(delete_tunnel_semantics (fun _ => false) sampleStore "missing").1 rfl,
   ((delete_tunnel_semantics (fun _ => false) sampleStore "vxlan5000").2
      sampleTunnel rfl).2⟩

/-- The commands a forward pass actually issues form a prefix of the full
success sequence: a failure at one step prevents every later step. -/
theorem forwardPass_ops_init (b : Backend) (t : VxLANTunnel) :
    ∃ rest, (forwardPass b t).1 ++ rest = fullTrace b t := by
  cases h1 : b (Op.linkAdd t.interface_name t.vni t.local_ip t.remote_ip
      t.physical_interface t.port) <;>
    cases h2 : b (Op.linkUp t.interface_name) <;>
    cases hq : b (Op.linkShow t.bridge_name) <;>
    cases h3 : b (Op.bridgeAdd t.bridge_name) <;>
    cases h4 : b (Op.bridgeUp t.bridge_name) <;>
    cases h5 : b (Op.setMaster t.interface_name t.bridge_name) <;>
    cases h6 : b (Op.setMtu t.interface_name t.mtu) <;>
    simp [forwardPass, seq2, createVxlanInterface, setupBridge, configureMtu,
      fullTrace, h1, h2, hq, h3, h4, h5, h6]

/-- The full success sequence contains no `ip link delete` command. -/
theorem fullTrace_no_delete (b : Backend) (t : VxLANTunnel) (n : String) :
    Op.linkDelete n ∉ fullTrace b t := by
  cases hq : b (Op.linkShow t.bridge_name) <;> simp [fullTrace, hq]

/-- C2 (amended): when the forward pass of `create_tunnel` fails at any step,
the raised exception propagates unchanged, the registry is untouched and
nothing is saved, the commands issued are the failed forward prefix followed
by a single best-effort `ip link delete` of the tunnel interface, later
steps are never invoked, and a bridge created during the attempt is not torn
down. -/
theorem create_failure_compensation (b : Backend) (store : Store)
    (t : VxLANTunnel) (tid : String) (e : PyError) (hne : tid ≠ "")
    (hfresh : List.lookup tid store = none)
    (hfail : (forwardPass b t).2 = some e) :
    create_tunnel b store t (some tid) =
      { ret := .error e, tunnels := store,
        trace := (forwardPass b t).1 ++ [Op.linkDelete t.interface_name],
        saved := false } ∧
    (∃ rest, (forwardPass b t).1 ++ rest = fullTrace b t) ∧
    (t.bridge_name ≠ t.interface_name →
      Op.linkDelete t.bridge_name ∉
        (create_tunnel b store t (some tid)).trace) := by
  have hcr : create_tunnel b store t (some tid) =
      { ret := .error e, tunnels := store,
        trace := (forwardPass b t).1 ++ [Op.linkDelete t.interface_name],
        saved := false } := by
    simp [create_tunnel, hne, hfresh, hfail]
  refine ⟨hcr, forwardPass_ops_init b t, fun hbi hmem => ?_⟩
  rw [hcr] at hmem
  simp only [List.mem_append, List.mem_singleton] at hmem
  rcases hmem with hmem | hmem
  · obtain ⟨rest, hrest⟩ := forwardPass_ops_init b t
    exact fullTrace_no_delete b t t.bridge_name
      (hrest ▸ List.mem_append_left rest hmem)
  · exact hbi (by injection hmem)

/-- Witness for C2 at a concrete tunnel and a backend failing the attach
step after creating the bridge. -/
theorem create_failure_compensation_witness :
    create_tunnel attachFail [] sampleTunnel (some "t1") =
      { ret := .error (.calledProcessError
          (Op.setMaster "vxlan5000" "br-lan")),
        tunnels := [],
        trace := (forwardPass attachFail sampleTunnel).1 ++
          [Op.linkDelete "vxlan5000"],
        saved := false } ∧
    (Op.linkDelete "br-lan" ∉
      (create_tunnel attachFail [] sampleTunnel (some "t1")).trace) :=
  ⟨(create_failure_compensation attachFail [] sampleTunnel "t1"
      (.calledProcessError (Op.setMaster "vxlan5000" "br-lan"))
      (by decide) rfl rfl).1,
   (create_failure_compensation attachFail [] sampleTunnel "t1"
      (.calledProcessError (Op.setMaster "vxlan5000" "br-lan"))
      (by decide) rfl rfl).2.2 (by decide)⟩

/-- Counterexample to C2 as stated: with the bridge absent and the attach
step failing, the attempt creates the bridge (`bridgeAdd` is issued) but the
best-effort cleanup deletes only the tunnel interface — no command ever
deletes the bridge — so not everything created in this attempt is torn
down; the failure still propagates and nothing is persisted. -/
theorem create_cleanup_incomplete_cex :
    Op.bridgeAdd "br-lan" ∈
      (create_tunnel attachFail [] sampleTunnel (some "t1")).trace ∧
    Op.linkDelete "br-lan" ∉
      (create_tunnel attachFail [] sampleTunnel (some "t1")).trace ∧
    (create_tunnel attachFail [] sampleTunnel (some "t1")).ret =
      .error (.calledProcessError (Op.setMaster "vxlan5000" "br-lan")) ∧
    (create_tunnel attachFail [] sampleTunnel (some "t1")).tunnels = [] ∧
    (create_tunnel attachFail [] sampleTunnel (some "t1")).saved = false :=
  ⟨by decide, by decide, rfl, rfl, rfl⟩

/-- C3 (amended): constructing a `VxLANTunnel` succeeds exactly when the VNI
lies in [4096, 16777215] and both endpoint addresses are syntactically valid
IP literals; any failure is a `ValueError`.  The MTU is not examined, so the
construct is insensitive to it. -/
theorem tunnelspec_validation (vni : Int) (lip rip iname bname phys : String)
    (mtu prt : Int) (lbl enc : String) (psk : Option String) :
    ((∃ t, mkVxLANTunnel vni lip rip iname bname phys mtu prt lbl enc psk =
        .ok t) ↔
      (validate_vni vni = true ∧ validate_ip lip = true ∧
        validate_ip rip = true)) ∧
    (¬(validate_vni vni = true ∧ validate_ip lip = true ∧
        validate_ip rip = true) →
      ∃ msg, mkVxLANTunnel vni lip rip iname bname phys mtu prt lbl enc psk =
        .error (.valueError msg)) := by
  unfold mkVxLANTunnel
  cases hv : validate_vni vni <;> cases hl : validate_ip lip <;>
    cases hr : validate_ip rip <;> simp

/-- Witness for C3: a construction accepted at a valid VNI and IPv4 pair,
and one rejected at an out-of-range VNI. -/
theorem tunnelspec_validation_witness :
    (∃ t, mkVxLANTunnel 5000 "10.0.0.1" "10.0.0.2" "vxlan5000" "br-lan"
      "eth0" 1450 4789 "" "none" none = .ok t) ∧
    (∃ msg, mkVxLANTunnel 99 "10.0.0.1" "10.0.0.2" "vxlan99" "br-lan"
      "eth0" 1450 4789 "" "none" none = .error (.valueError msg)) :=
  ⟨(tunnelspec_validation 5000 "10.0.0.1" "10.0.0.2" "vxlan5000" "br-lan"
      "eth0" 1450 4789 "" "none" none).1.mpr (by decide),
   (tunnelspec_validation 99 "10.0.0.1" "10.0.0.2" "vxlan99" "br-lan"
      "eth0" 1450 4789 "" "none" none).2 (by decide)⟩

/-- Counterexample to C3 as stated: a `VxLANTunnel` with MTU 0 — far outside
[1280, 9000] — constructs successfully, because `__post_init__` never calls
`validate_mtu`. -/
theorem tunnelspec_mtu_unchecked_cex :
    mkVxLANTunnel 5000 "10.0.0.1" "10.0.0.2" "vxlan5000" "br-lan" "eth0" 0
        4789 "" "none" none =
      .ok { vni := 5000, local_ip := "10.0.0.1", remote_ip := "10.0.0.2",
            interface_name := "vxlan5000", bridge_name := "br-lan",
            physical_interface := "eth0", mtu := 0, port := 4789, label := "",
            encryption := "none", psk_key := none } ∧
    validate_mtu 0 = false :=
  ⟨rfl, by decide⟩

/-- C7 (amended): `recover_state` probes every stored record in order; for a
record whose interface the probe reports absent it replays the forward
provisioning pass without touching or re-saving the registry; an exception
during one record's replay is swallowed, so the pass always continues over
the remaining records; and the call returns `None` — not a count pair. -/
theorem recover_state_replay (b : Backend) (pre post : Store) (tid : String)
    (t : VxLANTunnel) :
    recover_state b (pre ++ (tid, t) :: post) =
      ((recover_state b pre).1 ++ (recoverTunnel b t ++
        (recover_state b post).1), RecoverRet.retNone) ∧
    (b (Op.linkShow t.interface_name) = false →
      recoverTunnel b t =
        Op.linkShow t.interface_name :: (forwardPass b t).1) ∧
    (b (Op.linkShow t.interface_name) = true →
      recoverTunnel b t = [Op.linkShow t.interface_name]) := by
  refine ⟨?_, fun h => by simp [recoverTunnel, h], fun h => by
    simp [recoverTunnel, h]⟩
  simp [recover_state]

/-- Witness for C7: one record with a missing interface between two healthy
records; the middle record's replay runs and the trailing record is still
probed. -/
theorem recover_state_replay_witness :
    recover_state probeFail sampleStore =
      ((recover_state probeFail []).1 ++
        (recoverTunnel probeFail sampleTunnel ++
          (recover_state probeFail []).1), RecoverRet.retNone) ∧
    recoverTunnel probeFail sampleTunnel =
      Op.linkShow "vxlan5000" :: (forwardPass probeFail sampleTunnel).1 :=
  ⟨(recover_state_replay probeFail [] [] "vxlan5000" sampleTunnel).1,
   (recover_state_replay probeFail [] [] "vxlan5000" sampleTunnel).2.1 rfl⟩

/-- Counterexample to C7 as stated: over a store with one record whose
backend object is absent (M = 1) and every provisioning command succeeding,
`recover_state` evaluates to `None`, not to the pair (recovered=1,
failed=0); the source has no `return` statement and keeps no counters. -/
theorem recover_state_no_count_pair_cex :
    (recover_state probeFail sampleStore).2 = RecoverRet.retNone ∧
    RecoverRet.retNone ≠ RecoverRet.retPair 1 0 ∧
    probeFail (Op.linkShow "vxlan5000") = false :=
  ⟨rfl, by decide, rfl⟩

/-- Twice the number of unordered pairs of a list is n·(n−1). -/
theorem pairsOf_length_two_mul :
    ∀ (l : List α), 2 * (pairsOf l).length = l.length * (l.length - 1)
  | [] => rfl
  | x :: xs => by
    have ih := pairsOf_length_two_mul xs
    have key : ∀ n : Nat, (n + 1) * n = n * (n - 1) + 2 * n := by
      intro n
      cases n with
      | zero => rfl
      | succ m => simp only [Nat.succ_sub_one]; ring
    simp only [pairsOf, List.length_append, List.length_map, List.length_cons,
      Nat.succ_sub_one]
    linarith [ih, key xs.length]

/-- Shape of a successful `meshEntries` run: one entry per pair, in pair
order, with consecutively counted VNIs. -/
theorem meshEntries_spec (cfg : TopologyConfig) :
    ∀ (ps : List (String × String)) (v : Int)
      (r : List (String × PlannedTunnel)),
      meshEntries cfg ps v = .ok r →
      r.length = ps.length ∧
      r.map (fun p => (p.2.nodeA, p.2.nodeB)) = ps ∧
      ∀ (i : Nat) (e : String × PlannedTunnel),
        r[i]? = some e → e.2.vni = v + i := by
  intro ps
  induction ps with
  | nil =>
    intro v r h
    simp [meshEntries] at h
    subst h
    simp
  | cons hd rest ih =>
    intro v r h
    obtain ⟨n1, n2⟩ := hd
    unfold meshEntries at h
    cases hw1 : wanIpOf cfg.nodes n1 with
    | error e => simp [hw1] at h
    | ok lip =>
      cases hw2 : wanIpOf cfg.nodes n2 with
      | error e => simp [hw1, hw2] at h
      | ok rip =>
        cases hrec : meshEntries cfg rest (v + 1) with
        | error e => simp [hw1, hw2, hrec] at h
        | ok restE =>
          simp only [hw1, hw2, hrec, Except.ok.injEq] at h
          obtain ⟨hl, hm, hv⟩ := ih (v + 1) restE hrec
          subst h
          refine ⟨by simp [hl], by simp [hm], ?_⟩
          intro i e hget
          cases i with
          | zero =>
            simp at hget
            subst hget
            simp
          | succ j =>
            simp only [List.getElem?_cons_succ] at hget
            have := hv j e hget
            push_cast at this ⊢
            omega

/-- C4: full-mesh planning is a pure function (identical input gives an
identical plan); a successful plan has exactly n·(n−1)/2 entries, one per
unordered node pair in canonical `itertools.combinations` order, with VNIs
assigned consecutively from `base_vni`; and on the three-node example with
`base_vni = 2000` it yields exactly the assignment 2000:(A,B), 2001:(A,C),
2002:(B,C). -/
theorem full_mesh_plan_props :
    plan_full_mesh meshCfg3 = .ok meshPlan3 ∧
    (∀ cfg r, plan_full_mesh cfg = .ok r →
      r.length = cfg.nodes.length * (cfg.nodes.length - 1) / 2 ∧
      r.map (fun p => (p.2.nodeA, p.2.nodeB)) =
        pairsOf (cfg.nodes.map (fun p => p.1)) ∧
      ∀ (i : Nat) (e : String × PlannedTunnel),
        r[i]? = some e → e.2.vni = cfg.base_vni.getD 100 + i) ∧
    (∀ cfg cfg2 : TopologyConfig, cfg = cfg2 →
      plan_full_mesh cfg = plan_full_mesh cfg2) := by
  refine ⟨rfl, fun cfg r h => ?_, fun cfg cfg2 hh => by rw [hh]⟩
  rw [plan_full_mesh] at h
  obtain ⟨hl, hm, hv⟩ := meshEntries_spec cfg
    (pairsOf (cfg.nodes.map (fun p => p.1))) (cfg.base_vni.getD 100) r h
  refine ⟨?_, hm, hv⟩
  have h2 := pairsOf_length_two_mul (cfg.nodes.map (fun p => p.1))
  simp only [List.length_map] at h2
  omega

/-- Witness for C4: the general conjunct applied to the three-node example
via the concrete conjunct. -/
theorem full_mesh_plan_props_witness :
    meshPlan3.length =
      meshCfg3.nodes.length * (meshCfg3.nodes.length - 1) / 2 ∧
    meshPlan3.map (fun p => (p.2.nodeA, p.2.nodeB)) =
      pairsOf (meshCfg3.nodes.map (fun p => p.1)) :=
  ⟨(full_mesh_plan_props.2.1 meshCfg3 meshPlan3 full_mesh_plan_props.1).1,
   (full_mesh_plan_props.2.1 meshCfg3 meshPlan3 full_mesh_plan_props.1).2.1⟩

/-- Shape of a successful `spokeEntries` run: one entry per non-hub
inventory entry, spokes in inventory order, hub fixed, VNIs counted
consecutively. -/
theorem spokeEntries_spec (cfg : TopologyConfig) (h : String)
    (info : NodeCfg) :
    ∀ (ns : List (String × NodeCfg)) (v : Int)
      (r : List (String × PlannedTunnel)),
      spokeEntries cfg h info ns v = .ok r →
      r.length = (ns.filter (fun p => p.1 != h)).length ∧
      r.map (fun p => p.2.nodeB) =
        (ns.filter (fun p => p.1 != h)).map (fun p => p.1) ∧
      (∀ e ∈ r, e.2.nodeA = h) ∧
      ∀ (i : Nat) (e : String × PlannedTunnel),
        r[i]? = some e → e.2.vni = v + i := by
  intro ns
  induction ns with
  | nil =>
    intro v r hr
    simp [spokeEntries] at hr
    subst hr
    simp
  | cons hd rest ih =>
    intro v r hr
    obtain ⟨name, ninfo⟩ := hd
    unfold spokeEntries at hr
    by_cases hname : name = h
    · simp only [hname, if_pos rfl] at hr
      obtain ⟨hl, hm, ha, hv⟩ := ih v r hr
      refine ⟨?_, ?_, ha, hv⟩
      · simpa [List.filter_cons, hname] using hl
      · simpa [List.filter_cons, hname] using hm
    · simp only [if_neg hname] at hr
      cases hw1 : info.wan_ip with
      | none => simp [hw1] at hr
      | some lip =>
        cases hw2 : ninfo.wan_ip with
        | none => simp [hw1, hw2] at hr
        | some rip =>
          cases hrec : spokeEntries cfg h info rest (v + 1) with
          | error e => simp [hw1, hw2, hrec] at hr
          | ok restE =>
            simp only [hw1, hw2, hrec, Except.ok.injEq] at hr
            obtain ⟨hl, hm, ha, hv⟩ := ih (v + 1) restE hrec
            subst hr
            have hkeep : (name, ninfo).1 != h := by
              simpa using hname
            refine ⟨?_, ?_, ?_, ?_⟩
            · simp [List.filter_cons, hkeep, hl]
            · simp [List.filter_cons, hkeep, hm]
            · intro e he
              rcases List.mem_cons.mp he with he | he
              · subst he; rfl
              · exact ha e he
            · intro i e hget
              cases i with
              | zero => simp at hget; subst hget; simp
              | succ j =>
                simp only [List.getElem?_cons_succ] at hget
                have := hv j e hget
                push_cast at this ⊢
                omega

/-- C9: hub-spoke planning over an inventory containing the designated hub
yields one tunnel per non-hub entry — the hub paired with each distinct
spoke in inventory iteration order — with VNIs counted from `base_vni`; a
config whose `hub` dict is absent or empty raises `ValueError`, and so does
a designated hub absent from the inventory. -/
theorem hub_spoke_plan_props :
    (∀ cfg : TopologyConfig, cfg.hub = none →
      plan_hub_spoke cfg = .error (.valueError
        "Hub configuration is required for hub-spoke topology")) ∧
    (∀ (cfg : TopologyConfig) (hn : Option String), cfg.hub = some hn →
      (∀ x, hn = some x → List.lookup x cfg.nodes = none) →
      plan_hub_spoke cfg = .error (.valueError ("Hub node '" ++ pyStr hn ++
        "' not found in nodes configuration"))) ∧
    (∀ (cfg : TopologyConfig) (h : String) (info : NodeCfg)
        (r : List (String × PlannedTunnel)),
      cfg.hub = some (some h) → List.lookup h cfg.nodes = some info →
      plan_hub_spoke cfg = .ok r →
      r.length = (cfg.nodes.filter (fun p => p.1 != h)).length ∧
      r.map (fun p => p.2.nodeB) =
        (cfg.nodes.filter (fun p => p.1 != h)).map (fun p => p.1) ∧
      (∀ e ∈ r, e.2.nodeA = h) ∧
      (∀ (i : Nat) (e : String × PlannedTunnel),
        r[i]? = some e → e.2.vni = cfg.base_vni.getD 100 + i) ∧
      ((cfg.nodes.map (fun p => p.1)).Nodup →
        (r.map (fun p => p.2.nodeB)).Nodup)) := by
  refine ⟨fun cfg hh => by simp [plan_hub_spoke, hh], ?_, ?_⟩
  · intro cfg hn hh habs
    cases hn with
    | none => simp [plan_hub_spoke, hh]
    | some x => simp [plan_hub_spoke, hh, habs x rfl]
  · intro cfg h info r hh hlk hplan
    rw [plan_hub_spoke, hh] at hplan
    simp [hlk] at hplan
    obtain ⟨hl, hm, ha, hv⟩ := spokeEntries_spec cfg h info cfg.nodes
      (cfg.base_vni.getD 100) r hplan
    refine ⟨hl, hm, ha, hv, fun hnd => ?_⟩
    rw [hm]
    have : (cfg.nodes.filter (fun p => p.1 != h)).map (fun p => p.1) =
        (cfg.nodes.map (fun p => p.1)).filter (fun s => s != h) := by
      induction cfg.nodes with
      | nil => rfl
      | cons q qs ihq =>
        by_cases hq : q.1 != h <;> simp [List.filter_cons, hq, ihq]
    rw [this]
    exact hnd.filter _

/-- Witness for C9: the three branches at concrete configs — a hub plus two
spokes, a config without a hub dict, and a config designating an
unregistered hub. -/
theorem hub_spoke_plan_props_witness :
    plan_hub_spoke meshCfg3 = .error (.valueError
      "Hub configuration is required for hub-spoke topology") ∧
    plan_hub_spoke { meshCfg3 with hub := some (some "Z") } =
      .error (.valueError "Hub node 'Z' not found in nodes configuration") ∧
    (∀ e ∈ planHub, e.2.nodeA = "H") ∧
    planHub.length =
      (hubCfg.nodes.filter (fun p => p.1 != "H")).length := by
  have h3 := hub_spoke_plan_props.2.2 hubCfg "H"
    { wan_ip := some "10.0.0.1", physical_interface := none } planHub
    rfl rfl rfl
  exact ⟨hub_spoke_plan_props.1 meshCfg3 rfl,
    hub_spoke_plan_props.2.1 { meshCfg3 with hub := some (some "Z") }
      (some "Z") rfl (fun x hx => by cases hx; rfl),
    h3.2.2.1, h3.1⟩

/-- A successful association-list lookup locates a stored pair. -/
theorem mem_of_lookup_nodes (k : String) (v : NodeCfg) :
    ∀ nodes : List (String × NodeCfg),
      List.lookup k nodes = some v → (k, v) ∈ nodes := by
  intro nodes
  induction nodes with
  | nil => intro h; simp [List.lookup] at h
  | cons p rest ih =>
    intro h
    rw [List.lookup] at h
    by_cases hk : k = p.1
    · have hb : (k == p.1) = true := beq_iff_eq.mpr hk
      rw [hb] at h
      injection h with h
      subst h
      exact List.mem_cons.mpr (Or.inl (by rw [hk]))
    · have hb : (k == p.1) = false := beq_eq_false_iff_ne.mpr hk
      rw [hb] at h
      exact List.mem_cons.mpr (Or.inr (ih h))

/-- A connection entry whose endpoint fails the inventory lookup makes
`partialEntries` raise `ValueError` naming a node, provided every inventory
entry carries a `wan_ip` (so earlier well-formed connections cannot fail
first with a `KeyError`). -/
theorem partialEntries_unknown (cfg : TopologyConfig)
    (hwf : ∀ p ∈ cfg.nodes, p.2.wan_ip ≠ none) :
    ∀ (conns : List Connection) (v : Int),
      (∃ c ∈ conns,
        c.node1.bind (fun n => List.lookup n cfg.nodes) = none ∨
        c.node2.bind (fun n => List.lookup n cfg.nodes) = none) →
      ∃ s, partialEntries cfg conns v = .error (.valueError
        ("Node '" ++ s ++ "' not found in nodes configuration")) := by
  intro conns
  induction conns with
  | nil => intro v h; simp at h
  | cons c rest ih =>
    intro v h
    cases hb1 : c.node1.bind
        (fun n => (List.lookup n cfg.nodes).map (fun i => (n, i))) with
    | none => exact ⟨pyStr c.node1, by rw [partialEntries, hb1]⟩
    | some p =>
      obtain ⟨n1, i1⟩ := p
      have hn1 : c.node1 = some n1 ∧ List.lookup n1 cfg.nodes = some i1 := by
        cases hcn : c.node1 with
        | none => rw [hcn] at hb1; simp at hb1
        | some n =>
          rw [hcn] at hb1
          cases hlk : List.lookup n cfg.nodes with
          | none => simp [hlk] at hb1
          | some info =>
            simp [hlk] at hb1
            exact ⟨by rw [hb1.1], by rw [← hb1.1, hlk, hb1.2]⟩
      cases hb2 : c.node2.bind
          (fun n => (List.lookup n cfg.nodes).map (fun i => (n, i))) with
      | none => exact ⟨pyStr c.node2, by rw [partialEntries, hb1, hb2]⟩
      | some q =>
        obtain ⟨n2, i2⟩ := q
        have hn2 : c.node2 = some n2 ∧ List.lookup n2 cfg.nodes = some i2 := by
          cases hcn : c.node2 with
          | none => rw [hcn] at hb2; simp at hb2
          | some n =>
            rw [hcn] at hb2
            cases hlk : List.lookup n cfg.nodes with
            | none => simp [hlk] at hb2
            | some info =>
              simp [hlk] at hb2
              exact ⟨by rw [hb2.1], by rw [← hb2.1, hlk, hb2.2]⟩
        have hbad : ∃ c2 ∈ rest,
            c2.node1.bind (fun n => List.lookup n cfg.nodes) = none ∨
            c2.node2.bind (fun n => List.lookup n cfg.nodes) = none := by
          rcases h with ⟨c0, hc0, hbad0⟩
          rcases List.mem_cons.mp hc0 with rfl | hmem
          · exfalso
            rcases hbad0 with hb | hb
            · rw [hn1.1] at hb
              simp [hn1.2] at hb
            · rw [hn2.1] at hb
              simp [hn2.2] at hb
          · exact ⟨c0, hmem, hbad0⟩
        obtain ⟨s, hs⟩ := ih (v + 1) hbad
        have hw1 := hwf (n1, i1) (mem_of_lookup_nodes n1 i1 cfg.nodes hn1.2)
        have hw2 := hwf (n2, i2) (mem_of_lookup_nodes n2 i2 cfg.nodes hn2.2)
        cases hi1 : i1.wan_ip with
        | none => exact absurd hi1 hw1
        | some lip =>
          cases hi2 : i2.wan_ip with
          | none => exact absurd hi2 hw2
          | some rip =>
            exact ⟨s, by rw [partialEntries, hb1, hb2]; simp [hi1, hi2, hs]⟩

/-- The self-connection check of `validate_topology_config` reports every
connection entry whose two endpoints compare equal, at its enumerate
index. -/
theorem connErrors_self_mem (nodes : List (String × NodeCfg)) :
    ∀ (conns : List Connection) (k i : Nat) (c : Connection),
      conns[i]? = some c → c.node1 = c.node2 →
      ("Connection " ++ toString (k + i) ++
        " cannot connect node to itself") ∈ connErrors nodes k conns := by
  intro conns
  induction conns with
  | nil => intro k i c h; simp at h
  | cons c0 rest ih =>
    intro k i c hget heq
    cases i with
    | zero =>
      simp at hget
      subst hget
      rw [connErrors]
      simp [heq]
    | succ j =>
      rw [connErrors]
      have hmem := ih (k + 1) j c (by simpa using hget) heq
      have harith : k + (j + 1) = (k + 1) + j := by omega
      rw [show k + (j + 1 : Nat) = (k + 1) + j from harith]
      simp [hmem]

/-- C8 (amended): partial-mesh planning fails with `ValueError` naming a
node whenever some connection entry references a node absent from a
well-formed inventory; a self-pair connection, by contrast, is accepted by
planning and is reported (at its index) only by
`validate_topology_config`. -/
theorem partial_mesh_validation_props :
    (∀ cfg : TopologyConfig, (∀ p ∈ cfg.nodes, p.2.wan_ip ≠ none) →
      (∃ c ∈ cfg.connections,
        c.node1.bind (fun n => List.lookup n cfg.nodes) = none ∨
        c.node2.bind (fun n => List.lookup n cfg.nodes) = none) →
      ∃ s, plan_partial_mesh cfg = .error (.valueError
        ("Node '" ++ s ++ "' not found in nodes configuration"))) ∧
    (∀ (cfg : TopologyConfig) (i : Nat) (c : Connection),
      cfg.nodes ≠ [] → cfg.connections[i]? = some c → c.node1 = c.node2 →
      ("Connection " ++ toString i ++ " cannot connect node to itself") ∈
        (validate_topology_config "partial-mesh" cfg).2 ∧
      (validate_topology_config "partial-mesh" cfg).1 = false) := by
  constructor
  · intro cfg hwf hex
    have hne : cfg.connections ≠ [] := by
      rcases hex with ⟨c, hc, _⟩
      exact List.ne_nil_of_mem hc
    rw [plan_partial_mesh, if_neg hne]
    exact partialEntries_unknown cfg hwf cfg.connections
      (cfg.base_vni.getD 100) hex
  · intro cfg i c hn hget heq
    have hcne : cfg.connections ≠ [] := by
      intro hnil
      rw [hnil] at hget
      simp at hget
    have hmem := connErrors_self_mem cfg.nodes cfg.connections 0 i c hget heq
    rw [Nat.zero_add] at hmem
    have hmem2 : ("Connection " ++ toString i ++
        " cannot connect node to itself") ∈
        (validate_topology_config "partial-mesh" cfg).2 := by
      rw [validate_topology_config, if_neg hn]
      simp only [partialErrors, if_neg hcne]
      simp [hmem]
    refine ⟨hmem2, ?_⟩
    have hne2 := List.ne_nil_of_mem hmem2
    rw [validate_topology_config, if_neg hn] at hne2 ⊢
    simpa using hne2

/-- Witness for C8: an unknown-endpoint config rejected by planning, and the
self-pair config flagged by validation. -/
theorem partial_mesh_validation_props_witness :
    (∃ s, plan_partial_mesh unknownNodeCfg = .error (.valueError
      ("Node '" ++ s ++ "' not found in nodes configuration"))) ∧
    ("Connection 0 cannot connect node to itself") ∈
      (validate_topology_config "partial-mesh" selfPairCfg).2 := by
  refine ⟨partial_mesh_validation_props.1 unknownNodeCfg (by decide)
    ⟨{ node1 := some "A", node2 := some "Z" }, by decide, Or.inr (by decide)⟩,
    ?_⟩
  have h := (partial_mesh_validation_props.2 selfPairCfg 0
    { node1 := some "A", node2 := some "A" } (by decide) rfl rfl).1
  simpa using h

/-- Counterexample to C8 as stated: planning a partial mesh whose single
connection links node A to itself succeeds with a planned A-to-A tunnel —
no `ConfigError` is raised by planning — even though
`validate_topology_config` flags exactly that connection. -/
theorem partial_mesh_self_pair_cex :
    plan_partial_mesh selfPairCfg =
      .ok [("partial-A-A-5000", selfPairPlanned)] ∧
    (validate_topology_config "partial-mesh" selfPairCfg).2 =
      ["Connection 0 cannot connect node to itself"] :=
  ⟨rfl, by decide⟩

/-- C10: on any config with a non-empty inventory and no `base_vni` key,
`validate_topology_config` reports the defaulted base VNI 100 as invalid and
returns ok=False, because 100 lies outside [4096, 16777215]; and a full-mesh
plan over such a config starts its VNI assignment at 100, a value every
`VxLANTunnel` construction rejects. -/
theorem missing_base_vni_invalid (tt : String) (cfg : TopologyConfig)
    (hn : cfg.nodes ≠ []) (hb : cfg.base_vni = none) :
    (validate_topology_config tt cfg).1 = false ∧
    ("Invalid base_vni: 100. Must be between 4096 and 16777215") ∈
      (validate_topology_config tt cfg).2 ∧
    validate_vni 100 = false ∧
    (∀ (r : List (String × PlannedTunnel)) (e : String × PlannedTunnel),
      plan_full_mesh cfg = .ok r → r[0]? = some e →
      e.2.vni = 100 ∧
      ∀ (lip rip iname bname phys : String) (mtu prt : Int)
        (lbl enc : String) (psk : Option String),
        mkVxLANTunnel e.2.vni lip rip iname bname phys mtu prt lbl enc psk =
          .error (.valueError
            "Invalid VNI: 100. Must be between 4096 and 16777215")) := by
  have hbase : baseVniErrors cfg =
      ["Invalid base_vni: 100. Must be between 4096 and 16777215"] := by
    rw [baseVniErrors, hb]
    simp
    rfl
  have hmem : ("Invalid base_vni: 100. Must be between 4096 and 16777215") ∈
      (validate_topology_config tt cfg).2 := by
    rw [validate_topology_config, if_neg hn]
    simp [hbase]
  refine ⟨?_, hmem, by decide, ?_⟩
  · have hne2 := List.ne_nil_of_mem hmem
    rw [validate_topology_config, if_neg hn] at hne2 ⊢
    simpa using hne2
  · intro r e hplan hget
    rw [plan_full_mesh] at hplan
    have hv := (meshEntries_spec cfg (pairsOf (cfg.nodes.map (fun p => p.1)))
      (cfg.base_vni.getD 100) r hplan).2.2 0 e hget
    rw [hb] at hv
    simp at hv
    refine ⟨hv, fun lip rip iname bname phys mtu prt lbl enc psk => ?_⟩
    rw [hv]
    rfl

/-- Witness for C10: the two-node config without `base_vni`, with its
concrete full-mesh plan whose first VNI is 100. -/
theorem missing_base_vni_invalid_witness :
    (validate_topology_config "full-mesh" noBaseCfg).1 = false ∧
    ("Invalid base_vni: 100. Must be between 4096 and 16777215") ∈
      (validate_topology_config "full-mesh" noBaseCfg).2 ∧
    mkVxLANTunnel 100 "10.0.0.1" "10.0.0.2" "vxlan100" "br-lan" "eth0" 1450
        4789 "" "none" none =
      .error (.valueError
        "Invalid VNI: 100. Must be between 4096 and 16777215") := by
  have h := missing_base_vni_invalid "full-mesh" noBaseCfg (by decide) rfl
  have h4 := h.2.2.2 [("mesh-A-B-100",
    { tunnel_id := "mesh-A-B-100", ttype := "full-mesh", nodeA := "A",
      nodeB := "B", vni := 100, local_ip := "10.0.0.1",
      remote_ip := "10.0.0.2", interface_name := "vxlan100",
      bridge_name := "br-lan" })]
    ("mesh-A-B-100",
    { tunnel_id := "mesh-A-B-100", ttype := "full-mesh", nodeA := "A",
      nodeB := "B", vni := 100, local_ip := "10.0.0.1",
      remote_ip := "10.0.0.2", interface_name := "vxlan100",
      bridge_name := "br-lan" }) rfl rfl
  exact ⟨h.1, h.2.1,
    h4.2 "10.0.0.1" "10.0.0.2" "vxlan100" "br-lan" "eth0" 1450 4789 ""
      "none" none⟩

end VxLAN

